import Mathlib

/-!
Verification of the STS credential providers
(`src/rusoto/services/sts/src/custom/credential.rs`).

The source file defines a credential converter (`new_for_credentials`) and
three providers (session token, assume role, web identity federation), each
wrapping an abstract `Sts` client.  We embed the providers as structures
holding the client as a record of response functions; a Rust method taking
`&self` becomes a function returning a `(result, state)` pair whose state
component is the unchanged receiver, and the `&mut self` MFA mutators become
state transformers.  `chrono` date-time parsing is abstracted as a parameter
`parse : String → Except String Int` (an `Int` models the parsed instant);
the claims quantify only over whether parsing succeeds.
-/

namespace Rusoto

/-- Modelled from the spec: `CredentialsError` from `rusoto_core::credential`
(repository code not under `src/`): the unified error surfaced to generic
callers, wrapping a descriptive message. -/
structure CredentialsError where
  message : String
deriving Repr, DecidableEq

/-- Modelled from the spec: `CredentialsError::new` builds the error from a
message. -/
def CredentialsError.new (message : String) : CredentialsError :=
  { message := message }

/-- Modelled from the spec: `RusotoError<E>` from `rusoto_core` (repository
code not under `src/`): a remote-error value distinguishing service-level
error kinds from transport failures, plus the variant produced by the `From`
conversion of a `CredentialsError` used by the `?` operator in the source. -/
inductive RusotoError (E : Type) where
  | Service (err : E)
  | HttpDispatch (description : String)
  | Credentials (err : CredentialsError)
deriving Repr, DecidableEq

/-- Modelled from the spec: debug formatting (`{:?}`) of a `RusotoError`,
given a debug formatter for the service error type; stands in for the
derived `Debug` instance of `rusoto_core::RusotoError`. -/
def RusotoError.debugFmt {E : Type} (dbg : E → String) : RusotoError E → String
  | .Service err => "Service(" ++ dbg err ++ ")"
  | .HttpDispatch description => "HttpDispatch(" ++ description ++ ")"
  | .Credentials err => "Credentials(CredentialsError \x7b message: " ++ err.message ++ " \x7d)"

/-- Claims mapping of a credential: an association list standing in for the
`BTreeMap<String, String>` of `rusoto_core::credential` (insertion order
irrelevant, lookups by key). -/
abbrev ClaimsMap : Type := List (String × String)

/-- Key-replacing insertion, the semantics of `BTreeMap::insert`. -/
def ClaimsMap.insert : ClaimsMap → String → String → ClaimsMap
  | [], k, v => [(k, v)]
  | (k0, v0) :: rest, k, v =>
    if k0 = k then (k, v) :: rest else (k0, v0) :: ClaimsMap.insert rest k v

/-- Key lookup, the semantics of `BTreeMap::get`. -/
def ClaimsMap.get : ClaimsMap → String → Option String
  | [], _ => none
  | (k0, v0) :: rest, k => if k0 = k then some v0 else ClaimsMap.get rest k

/-- Modelled from the spec: the claim-name constants of
`rusoto_core::credential::claims` (repository code not under `src/`); the
spec's enrichment keys are "subject", "audience" and "issuer". -/
def claims.SUBJECT : String := "subject"

/-- Modelled from the spec: the "audience" claim-name constant. -/
def claims.AUDIENCE : String := "audience"

/-- Modelled from the spec: the "issuer" claim-name constant. -/
def claims.ISSUER : String := "issuer"

/-- Modelled from the spec: `AwsCredentials` from `rusoto_core::credential`
(repository code not under `src/`); the spec's LocalCredentials:
access key, secret key, optional session token, optional expiry instant,
claims mapping. -/
structure AwsCredentials where
  access_key_id : String
  secret_access_key : String
  session_token : Option String
  expires_at : Option Int
  claims : ClaimsMap
deriving Repr, DecidableEq

/-- Modelled from the spec: `AwsCredentials::new` (repository code not under
`src/`); per the spec the claims mapping starts empty. -/
def AwsCredentials.new (access_key_id : String) (secret_access_key : String)
    (session_token : Option String) (expires_at : Option Int) : AwsCredentials :=
  { access_key_id := access_key_id
    secret_access_key := secret_access_key
    session_token := session_token
    expires_at := expires_at
    claims := [] }

/-- Modelled from the spec: `crate::generated::Credentials` (generated STS
code not under `src/`), the spec's RemoteTemporaryCredentials: access key,
secret key, session token, and an expiration timestamp string. -/
structure Credentials where
  access_key_id : String
  secret_access_key : String
  session_token : String
  expiration : String
deriving Repr, DecidableEq

/-- Embedding of `chrono::Duration` as used by the source: seconds plus a
nanosecond remainder in `[0, 10^9)`. -/
structure Duration where
  secs : Int
  nanos : Nat
deriving Repr, DecidableEq

/-- `chrono::Duration::seconds`. -/
def Duration.seconds (n : Int) : Duration :=
  { secs := n, nanos := 0 }

/-- `chrono::Duration::num_seconds`: the whole-second part, rounding toward
zero. -/
def Duration.num_seconds (d : Duration) : Int :=
  if d.secs < 0 ∧ 0 < d.nanos then d.secs + 1 else d.secs

/-- `DEFAULT_DURATION_SECONDS` (credential.rs line 15). -/
def DEFAULT_DURATION_SECONDS : Int := 3600

/-- `DEFAULT_ROLE_DURATION_SECONDS` (credential.rs line 16). -/
def DEFAULT_ROLE_DURATION_SECONDS : Int := 900

/-- Modelled from the spec: the generated `GetSessionTokenRequest` fields set
by the source (not under `src/`). -/
structure GetSessionTokenRequest where
  serial_number : Option String
  token_code : Option String
  duration_seconds : Option Int
deriving Repr, DecidableEq

/-- Modelled from the spec: the generated `GetSessionTokenResponse` (not
under `src/`); only its optional credential payload is consumed. -/
structure GetSessionTokenResponse where
  credentials : Option Credentials
deriving Repr, DecidableEq

/-- Modelled from the spec: the generated `AssumeRoleRequest` fields set by
the source (not under `src/`); the remaining generated fields are filled by
`..Default::default()` and never read by this code. -/
structure AssumeRoleRequest where
  role_arn : String
  role_session_name : String
  duration_seconds : Option Int
  external_id : Option String
  policy : Option String
  serial_number : Option String
  token_code : Option String
deriving Repr, DecidableEq

/-- Modelled from the spec: the generated `AssumeRoleResponse` (not under
`src/`); only its optional credential payload is consumed. -/
structure AssumeRoleResponse where
  credentials : Option Credentials
deriving Repr, DecidableEq

/-- Modelled from the spec: the generated `AssumeRoleWithWebIdentityRequest`
fields set by the source (not under `src/`); the remaining generated fields
are filled by `..Default::default()` and never read by this code. -/
structure AssumeRoleWithWebIdentityRequest where
  web_identity_token : String
  provider_id : Option String
  role_arn : String
  role_session_name : String
  duration_seconds : Option Int
  policy : Option String
deriving Repr, DecidableEq

/-- Modelled from the spec: the generated `AssumeRoleWithWebIdentityResponse`
(not under `src/`): the optional credential payload and the optional
subject / audience / provider values consumed by the enrichment. -/
structure AssumeRoleWithWebIdentityResponse where
  credentials : Option Credentials
  subject_from_web_identity_token : Option String
  audience : Option String
  provider : Option String
deriving Repr, DecidableEq

/-- Modelled from the spec: the generated `GetSessionTokenError` service
error (not under `src/`), abstracted to a description with a debug string. -/
structure GetSessionTokenError where
  description : String
deriving Repr, DecidableEq

/-- Modelled from the spec: debug formatting of `GetSessionTokenError`. -/
def GetSessionTokenError.debugFmt (e : GetSessionTokenError) : String :=
  e.description

/-- Modelled from the spec: the generated `AssumeRoleError` service error
(not under `src/`), abstracted to a description with a debug string. -/
structure AssumeRoleError where
  description : String
deriving Repr, DecidableEq

/-- Modelled from the spec: debug formatting of `AssumeRoleError`. -/
def AssumeRoleError.debugFmt (e : AssumeRoleError) : String :=
  e.description

/-- Modelled from the spec: the generated `AssumeRoleWithWebIdentityError`
service error (not under `src/`), abstracted to a description with a debug
string. -/
structure AssumeRoleWithWebIdentityError where
  description : String
deriving Repr, DecidableEq

/-- Modelled from the spec: debug formatting of
`AssumeRoleWithWebIdentityError`. -/
def AssumeRoleWithWebIdentityError.debugFmt (e : AssumeRoleWithWebIdentityError) : String :=
  e.description

/-- Modelled from the spec: the `Sts` capability (the generated trait, not
under `src/`): a client exposing the three remote operations, each mapping a
structured request to a structured response or a remote error.  The source's
`Box<dyn Sts + Send + Sync>` is embedded as this record of functions. -/
structure Sts where
  get_session_token :
    GetSessionTokenRequest → Except (RusotoError GetSessionTokenError) GetSessionTokenResponse
  assume_role :
    AssumeRoleRequest → Except (RusotoError AssumeRoleError) AssumeRoleResponse
  assume_role_with_web_identity :
    AssumeRoleWithWebIdentityRequest →
      Except (RusotoError AssumeRoleWithWebIdentityError) AssumeRoleWithWebIdentityResponse

/-- `AwsCredentials::new_for_credentials` (credential.rs lines 27-45):
parse the expiration, wrap a parse failure as a `CredentialsError` (the
`CredentialsError::from` conversion keeps the parse error's description),
otherwise build the credential with token and expiry present. -/
def AwsCredentials.new_for_credentials (parse : String → Except String Int)
    (sts_creds : Credentials) : Except CredentialsError AwsCredentials :=
  match parse sts_creds.expiration with
  | .error e => .error (CredentialsError.new e)
  | .ok instant =>
    let expires_at := some instant
    .ok (AwsCredentials.new sts_creds.access_key_id sts_creds.secret_access_key
      (some sts_creds.session_token) expires_at)

/-- `StsSessionCredentialsProvider` (credential.rs lines 52-57). -/
structure StsSessionCredentialsProvider where
  sts_client : Sts
  session_duration : Duration
  mfa_serial : Option String
  mfa_code : Option String

/-- `StsSessionCredentialsProvider::new` (credential.rs lines 66-78). -/
def StsSessionCredentialsProvider.new (sts_client : Sts) (duration : Option Duration)
    (mfa_serial : Option String) : StsSessionCredentialsProvider :=
  { sts_client := sts_client
    session_duration := duration.getD (Duration.seconds DEFAULT_DURATION_SECONDS)
    mfa_serial := mfa_serial
    mfa_code := none }

/-- `StsSessionCredentialsProvider::set_mfa_code` (credential.rs lines
81-86). -/
def StsSessionCredentialsProvider.set_mfa_code (self : StsSessionCredentialsProvider)
    (code : String) : StsSessionCredentialsProvider :=
  { self with mfa_code := some code }

/-- `StsSessionCredentialsProvider::clear_mfa_code` (credential.rs lines
89-91). -/
def StsSessionCredentialsProvider.clear_mfa_code (self : StsSessionCredentialsProvider) :
    StsSessionCredentialsProvider :=
  { self with mfa_code := none }

/-- The request built by `get_session_token` (credential.rs lines 96-100). -/
def StsSessionCredentialsProvider.get_session_token_request
    (self : StsSessionCredentialsProvider) : GetSessionTokenRequest :=
  { serial_number := self.mfa_serial
    token_code := self.mfa_code
    duration_seconds := some self.session_duration.num_seconds }

/-- `StsSessionCredentialsProvider::get_session_token` (credential.rs lines
95-102): build the request and delegate to the client; `&self` becomes an
unchanged state component. -/
def StsSessionCredentialsProvider.get_session_token (self : StsSessionCredentialsProvider) :
    Except (RusotoError GetSessionTokenError) GetSessionTokenResponse ×
      StsSessionCredentialsProvider :=
  (self.sts_client.get_session_token self.get_session_token_request, self)

/-- `ProvideAwsCredentials for StsSessionCredentialsProvider` (credential.rs
lines 106-119): wrap a remote failure with a formatted description, fail
with "no credentials in response" on a missing payload, else convert. -/
def StsSessionCredentialsProvider.credentials (parse : String → Except String Int)
    (self : StsSessionCredentialsProvider) :
    Except CredentialsError AwsCredentials × StsSessionCredentialsProvider :=
  let r : Except CredentialsError AwsCredentials :=
    match (self.get_session_token).1 with
    | .error err =>
      .error (CredentialsError.new
        ("StsProvider get_session_token error: " ++
          RusotoError.debugFmt GetSessionTokenError.debugFmt err))
    | .ok resp =>
      match resp.credentials with
      | none => .error (CredentialsError.new "no credentials in response")
      | some creds => AwsCredentials.new_for_credentials parse creds
  (r, self)

/-- `StsAssumeRoleSessionCredentialsProvider` (credential.rs lines
126-135). -/
structure StsAssumeRoleSessionCredentialsProvider where
  sts_client : Sts
  role_arn : String
  session_name : String
  external_id : Option String
  session_duration : Duration
  scope_down_policy : Option String
  mfa_serial : Option String
  mfa_code : Option String

/-- `StsAssumeRoleSessionCredentialsProvider::new` (credential.rs lines
148-168). -/
def StsAssumeRoleSessionCredentialsProvider.new (sts_client : Sts) (role_arn : String)
    (session_name : String) (external_id : Option String)
    (session_duration : Option Duration) (scope_down_policy : Option String)
    (mfa_serial : Option String) : StsAssumeRoleSessionCredentialsProvider :=
  { sts_client := sts_client
    role_arn := role_arn
    session_name := session_name
    external_id := external_id
    session_duration := session_duration.getD (Duration.seconds DEFAULT_ROLE_DURATION_SECONDS)
    scope_down_policy := scope_down_policy
    mfa_serial := mfa_serial
    mfa_code := none }

/-- `StsAssumeRoleSessionCredentialsProvider::set_mfa_code` (credential.rs
lines 171-176). -/
def StsAssumeRoleSessionCredentialsProvider.set_mfa_code
    (self : StsAssumeRoleSessionCredentialsProvider) (code : String) :
    StsAssumeRoleSessionCredentialsProvider :=
  { self with mfa_code := some code }

/-- `StsAssumeRoleSessionCredentialsProvider::clear_mfa_code` (credential.rs
lines 179-181). -/
def StsAssumeRoleSessionCredentialsProvider.clear_mfa_code
    (self : StsAssumeRoleSessionCredentialsProvider) :
    StsAssumeRoleSessionCredentialsProvider :=
  { self with mfa_code := none }

/-- The request built by `assume_role` (credential.rs lines 186-195);
unset generated fields take their defaults. -/
def StsAssumeRoleSessionCredentialsProvider.assume_role_request
    (self : StsAssumeRoleSessionCredentialsProvider) : AssumeRoleRequest :=
  { role_arn := self.role_arn
    role_session_name := self.session_name
    duration_seconds := some self.session_duration.num_seconds
    external_id := self.external_id
    policy := self.scope_down_policy
    serial_number := self.mfa_serial
    token_code := self.mfa_code }

/-- `StsAssumeRoleSessionCredentialsProvider::assume_role` (credential.rs
lines 185-205): delegate to the client, propagate a remote failure as-is,
fail with "no credentials in response" on a missing payload (lifted into
`RusotoError::Credentials` by the `?` conversion), else convert, lifting a
conversion error the same way. -/
def StsAssumeRoleSessionCredentialsProvider.assume_role (parse : String → Except String Int)
    (self : StsAssumeRoleSessionCredentialsProvider) :
    Except (RusotoError AssumeRoleError) AwsCredentials ×
      StsAssumeRoleSessionCredentialsProvider :=
  let r : Except (RusotoError AssumeRoleError) AwsCredentials :=
    match self.sts_client.assume_role self.assume_role_request with
    | .error e => .error e
    | .ok resp =>
      match resp.credentials with
      | none => .error (RusotoError.Credentials (CredentialsError.new "no credentials in response"))
      | some creds =>
        match AwsCredentials.new_for_credentials parse creds with
        | .error e => .error (RusotoError.Credentials e)
        | .ok c => .ok c
  (r, self)

/-- `ProvideAwsCredentials for StsAssumeRoleSessionCredentialsProvider`
(credential.rs lines 209-217): wrap any `assume_role` failure into a single
`CredentialsError` with a formatted description. -/
def StsAssumeRoleSessionCredentialsProvider.credentials (parse : String → Except String Int)
    (self : StsAssumeRoleSessionCredentialsProvider) :
    Except CredentialsError AwsCredentials × StsAssumeRoleSessionCredentialsProvider :=
  let r : Except CredentialsError AwsCredentials :=
    match (self.assume_role parse).1 with
    | .error err =>
      .error (CredentialsError.new
        ("StsProvider get_session_token error: " ++
          RusotoError.debugFmt AssumeRoleError.debugFmt err))
    | .ok c => .ok c
  (r, self)

/-- `StsWebIdentityFederationSessionCredentialsProvider` (credential.rs
lines 221-229). -/
structure StsWebIdentityFederationSessionCredentialsProvider where
  sts_client : Sts
  wif_token : String
  wif_provider : Option String
  role_arn : String
  session_name : String
  session_duration : Duration
  scope_down_policy : Option String

/-- `StsWebIdentityFederationSessionCredentialsProvider::new` (credential.rs
lines 242-261). -/
def StsWebIdentityFederationSessionCredentialsProvider.new (sts_client : Sts)
    (wif_token : String) (wif_provider : Option String) (role_arn : String)
    (session_name : String) (session_duration : Option Duration)
    (scope_down_policy : Option String) :
    StsWebIdentityFederationSessionCredentialsProvider :=
  { sts_client := sts_client
    wif_token := wif_token
    wif_provider := wif_provider
    role_arn := role_arn
    session_name := session_name
    session_duration := session_duration.getD (Duration.seconds DEFAULT_DURATION_SECONDS)
    scope_down_policy := scope_down_policy }

/-- The request built by `assume_role_with_web_identity` (credential.rs
lines 267-275); unset generated fields take their defaults. -/
def StsWebIdentityFederationSessionCredentialsProvider.assume_role_with_web_identity_request
    (self : StsWebIdentityFederationSessionCredentialsProvider) :
    AssumeRoleWithWebIdentityRequest :=
  { web_identity_token := self.wif_token
    provider_id := self.wif_provider
    role_arn := self.role_arn
    role_session_name := self.session_name
    duration_seconds := some self.session_duration.num_seconds
    policy := self.scope_down_policy }

/-- `assume_role_with_web_identity` (credential.rs lines 264-307): delegate
to the client, propagate a remote failure, fail with "no credentials in
response" on a missing payload, convert, then independently insert the
subject, audience and issuer claims when the response carries them. -/
def StsWebIdentityFederationSessionCredentialsProvider.assume_role_with_web_identity
    (parse : String → Except String Int)
    (self : StsWebIdentityFederationSessionCredentialsProvider) :
    Except (RusotoError AssumeRoleWithWebIdentityError) AwsCredentials ×
      StsWebIdentityFederationSessionCredentialsProvider :=
  let r : Except (RusotoError AssumeRoleWithWebIdentityError) AwsCredentials :=
    match self.sts_client.assume_role_with_web_identity
        self.assume_role_with_web_identity_request with
    | .error e => .error e
    | .ok resp =>
      match resp.credentials with
      | none => .error (RusotoError.Credentials (CredentialsError.new "no credentials in response"))
      | some creds =>
        match AwsCredentials.new_for_credentials parse creds with
        | .error e => .error (RusotoError.Credentials e)
        | .ok aws_creds0 =>
          let aws_creds1 :=
            match resp.subject_from_web_identity_token with
            | some subject_from_wif =>
              { aws_creds0 with
                claims := ClaimsMap.insert aws_creds0.claims claims.SUBJECT subject_from_wif }
            | none => aws_creds0
          let aws_creds2 :=
            match resp.audience with
            | some audience =>
              { aws_creds1 with
                claims := ClaimsMap.insert aws_creds1.claims claims.AUDIENCE audience }
            | none => aws_creds1
          let aws_creds3 :=
            match resp.provider with
            | some issuer =>
              { aws_creds2 with
                claims := ClaimsMap.insert aws_creds2.claims claims.ISSUER issuer }
            | none => aws_creds2
          .ok aws_creds3
  (r, self)

/-- Modelled from the spec: the `ProvideAwsCredentials` implementation for
`StsWebIdentityFederationSessionCredentialsProvider` is absent from `src/`;
per the spec, `credentials()` delegates directly to
`assume_role_with_web_identity` and never wraps its errors. -/
def StsWebIdentityFederationSessionCredentialsProvider.credentials
    (parse : String → Except String Int)
    (self : StsWebIdentityFederationSessionCredentialsProvider) :
    Except (RusotoError AssumeRoleWithWebIdentityError) AwsCredentials ×
      StsWebIdentityFederationSessionCredentialsProvider :=
  self.assume_role_with_web_identity parse

/-!  Concrete helpers used by the witness theorems below. -/

/-- A concrete stand-in for the abstract date-time parser, succeeding on one
fixed timestamp string. -/
def parseFixed : String → Except String Int := fun s =>
  if s = "2015-03-14T09:26:53Z" then .ok 1426325213
  else .error ("could not parse " ++ s)

/-- A concrete remote credential record with a parseable expiration. -/
def fixedCreds : Credentials :=
  { access_key_id := "AKIDEXAMPLE"
    secret_access_key := "SECRET"
    session_token := "TOKEN"
    expiration := "2015-03-14T09:26:53Z" }

/-- A stub client whose calls succeed but carry no credential payload. -/
def stubSts : Sts :=
  { get_session_token := fun _ => .ok { credentials := none }
    assume_role := fun _ => .ok { credentials := none }
    assume_role_with_web_identity := fun _ =>
      .ok { credentials := none
            subject_from_web_identity_token := none
            audience := none
            provider := none } }

/-- A stub client whose calls all fail with a service error. -/
def failSts : Sts :=
  { get_session_token := fun _ => .error (.Service { description := "denied" })
    assume_role := fun _ => .error (.Service { description := "denied" })
    assume_role_with_web_identity := fun _ => .error (.Service { description := "denied" }) }

/-- A stub client whose calls succeed with `fixedCreds` and all three
web-identity enrichment values. -/
def okSts : Sts :=
  { get_session_token := fun _ => .ok { credentials := some fixedCreds }
    assume_role := fun _ => .ok { credentials := some fixedCreds }
    assume_role_with_web_identity := fun _ =>
      .ok { credentials := some fixedCreds
            subject_from_web_identity_token := some "user1"
            audience := some "aud1"
            provider := some "https://idp" } }

/-- C1: for every remote credential record whose expiration string parses as
an absolute date-time, `new_for_credentials` returns successfully with a
credential whose access key id, secret access key, and session token equal
those of the input, whose `expires_at` equals the parsed instant, and whose
claims mapping is empty. -/
theorem new_for_credentials_converts (parse : String → Except String Int)
    (sts_creds : Credentials) (t : Int) (h : parse sts_creds.expiration = .ok t) :
    AwsCredentials.new_for_credentials parse sts_creds =
      .ok { access_key_id := sts_creds.access_key_id
            secret_access_key := sts_creds.secret_access_key
            session_token := some sts_creds.session_token
            expires_at := some t
            claims := [] } := by
  unfold AwsCredentials.new_for_credentials
  rw [h]
  rfl

/-- Witness for C1 at a concrete record. -/
theorem new_for_credentials_converts_witness :
    parseFixed "2015-03-14T09:26:53Z" = .ok 1426325213 ∧
    AwsCredentials.new_for_credentials parseFixed fixedCreds =
      .ok { access_key_id := "AKIDEXAMPLE"
            secret_access_key := "SECRET"
            session_token := some "TOKEN"
            expires_at := some 1426325213
            claims := [] } :=
  ⟨rfl, new_for_credentials_converts parseFixed fixedCreds 1426325213 rfl⟩

/-- C5: for every remote credential record whose expiration string does not
parse, `new_for_credentials` fails with the conversion error and produces no
credential value; and no successfully converted credential has an absent
`expires_at`. -/
theorem new_for_credentials_parse_failure (parse : String → Except String Int)
    (sts_creds : Credentials) :
    (∀ e, parse sts_creds.expiration = .error e →
      AwsCredentials.new_for_credentials parse sts_creds = .error (CredentialsError.new e)) ∧
    (∀ r, AwsCredentials.new_for_credentials parse sts_creds = .ok r →
      r.expires_at.isSome = true) := by
  constructor
  · intro e he
    unfold AwsCredentials.new_for_credentials
    rw [he]
  · intro r hr
    unfold AwsCredentials.new_for_credentials at hr
    cases h : parse sts_creds.expiration with
    | error e => rw [h] at hr; exact absurd hr (by simp)
    | ok t =>
      rw [h] at hr
      simp only [Except.ok.injEq] at hr
      rw [← hr]
      rfl

/-- Witness for C5 at a concrete unparseable record. -/
theorem new_for_credentials_parse_failure_witness :
    AwsCredentials.new_for_credentials parseFixed
      { access_key_id := "A"
        secret_access_key := "S"
        session_token := "T"
        expiration := "not-a-date" } =
      .error (CredentialsError.new "could not parse not-a-date") :=
  (new_for_credentials_parse_failure parseFixed
    { access_key_id := "A"
      secret_access_key := "S"
      session_token := "T"
      expiration := "not-a-date" }).1 "could not parse not-a-date" rfl

/-- C9: whenever `new_for_credentials` succeeds, the resulting credential's
session-token field is present: it is `some` of the input's session token. -/
theorem new_for_credentials_token_present (parse : String → Except String Int)
    (sts_creds : Credentials) (r : AwsCredentials)
    (h : AwsCredentials.new_for_credentials parse sts_creds = .ok r) :
    r.session_token = some sts_creds.session_token := by
  unfold AwsCredentials.new_for_credentials at h
  cases hp : parse sts_creds.expiration with
  | error e => rw [hp] at h; exact absurd h (by simp)
  | ok t =>
    rw [hp] at h
    simp only [Except.ok.injEq] at h
    rw [← h]
    rfl

/-- Witness for C9 at a concrete record. -/
theorem new_for_credentials_token_present_witness :
    (AwsCredentials.new "AKIDEXAMPLE" "SECRET" (some "TOKEN") (some 1426325213)).session_token =
      some "TOKEN" :=
  new_for_credentials_token_present parseFixed fixedCreds
    (AwsCredentials.new "AKIDEXAMPLE" "SECRET" (some "TOKEN") (some 1426325213)) rfl

/-- C6: `get_session_token` builds a request whose serial number is the
configured MFA serial, whose token code is the currently stored MFA code,
and whose duration is the configured duration in whole seconds, and passes
exactly that request to the client; after `clear_mfa_code` the request built
by a subsequent call carries no token code, and after `set_mfa_code c` it
carries code `c`. -/
theorem get_session_token_request_spec (p : StsSessionCredentialsProvider) (c : String) :
    p.get_session_token_request.serial_number = p.mfa_serial ∧
    p.get_session_token_request.token_code = p.mfa_code ∧
    p.get_session_token_request.duration_seconds = some p.session_duration.num_seconds ∧
    (p.get_session_token).1 = p.sts_client.get_session_token p.get_session_token_request ∧
    (p.clear_mfa_code).get_session_token_request.token_code = none ∧
    (p.set_mfa_code c).get_session_token_request.token_code = some c :=
  ⟨rfl, rfl, rfl, rfl, rfl, rfl⟩

/-- C7: a provider constructed with no explicit duration places the
per-provider default in every request it builds: 3600 seconds for the
session-token provider, 900 for the assume-role provider, and 3600 for the
web-identity provider. -/
theorem default_durations (client : Sts) (role_arn session_name wif_token : String)
    (external_id scope_down_policy mfa_serial wif_provider : Option String) :
    (StsSessionCredentialsProvider.new client none
        mfa_serial).get_session_token_request.duration_seconds = some 3600 ∧
    (StsAssumeRoleSessionCredentialsProvider.new client role_arn session_name external_id
        none scope_down_policy mfa_serial).assume_role_request.duration_seconds = some 900 ∧
    (StsWebIdentityFederationSessionCredentialsProvider.new client wif_token wif_provider
        role_arn session_name none
        scope_down_policy).assume_role_with_web_identity_request.duration_seconds =
      some 3600 :=
  ⟨rfl, rfl, rfl⟩

/-- C2: the web-identity federation provider's `credentials()` delegates
directly to `assume_role_with_web_identity`: for every provider state (hence
every client result) it returns exactly what
`assume_role_with_web_identity` returns. -/
theorem wif_credentials_delegates (parse : String → Except String Int)
    (w : StsWebIdentityFederationSessionCredentialsProvider) :
    w.credentials parse = w.assume_role_with_web_identity parse :=
  rfl

/-- C10: every credential-acquiring operation leaves the provider state
unchanged, regardless of success or failure; `set_mfa_code` and
`clear_mfa_code` change the `mfa_code` field alone, leaving every other
field unchanged. -/
theorem provider_frame_conditions (parse : String → Except String Int) (code : String)
    (p : StsSessionCredentialsProvider) (q : StsAssumeRoleSessionCredentialsProvider)
    (w : StsWebIdentityFederationSessionCredentialsProvider) :
    (p.get_session_token).2 = p ∧
    (p.credentials parse).2 = p ∧
    (q.assume_role parse).2 = q ∧
    (q.credentials parse).2 = q ∧
    (w.assume_role_with_web_identity parse).2 = w ∧
    (w.credentials parse).2 = w ∧
    (p.set_mfa_code code).mfa_code = some code ∧
    (p.set_mfa_code code).sts_client = p.sts_client ∧
    (p.set_mfa_code code).session_duration = p.session_duration ∧
    (p.set_mfa_code code).mfa_serial = p.mfa_serial ∧
    (p.clear_mfa_code).mfa_code = none ∧
    (p.clear_mfa_code).sts_client = p.sts_client ∧
    (p.clear_mfa_code).session_duration = p.session_duration ∧
    (p.clear_mfa_code).mfa_serial = p.mfa_serial ∧
    (q.set_mfa_code code).mfa_code = some code ∧
    (q.set_mfa_code code).sts_client = q.sts_client ∧
    (q.set_mfa_code code).role_arn = q.role_arn ∧
    (q.set_mfa_code code).session_name = q.session_name ∧
    (q.set_mfa_code code).external_id = q.external_id ∧
    (q.set_mfa_code code).session_duration = q.session_duration ∧
    (q.set_mfa_code code).scope_down_policy = q.scope_down_policy ∧
    (q.set_mfa_code code).mfa_serial = q.mfa_serial ∧
    (q.clear_mfa_code).mfa_code = none ∧
    (q.clear_mfa_code).sts_client = q.sts_client ∧
    (q.clear_mfa_code).role_arn = q.role_arn ∧
    (q.clear_mfa_code).session_name = q.session_name ∧
    (q.clear_mfa_code).external_id = q.external_id ∧
    (q.clear_mfa_code).session_duration = q.session_duration ∧
    (q.clear_mfa_code).scope_down_policy = q.scope_down_policy ∧
    (q.clear_mfa_code).mfa_serial = q.mfa_serial :=
  ⟨rfl, rfl, rfl, rfl, rfl, rfl, rfl, rfl, rfl, rfl, rfl, rfl, rfl, rfl, rfl,
   rfl, rfl, rfl, rfl, rfl, rfl, rfl, rfl, rfl, rfl, rfl, rfl, rfl, rfl, rfl⟩

/-- C3: for each of the three providers, if the remote call succeeds but the
response's credential payload is absent, the operation fails with a
missing-credentials error whose description is "no credentials in response"
and never returns a credential value. -/
theorem missing_credentials_error (parse : String → Except String Int) :
    (∀ (p : StsSessionCredentialsProvider) (resp : GetSessionTokenResponse),
      (p.get_session_token).1 = .ok resp → resp.credentials = none →
      (p.credentials parse).1 =
        .error (CredentialsError.new "no credentials in response")) ∧
    (∀ (q : StsAssumeRoleSessionCredentialsProvider) (resp : AssumeRoleResponse),
      q.sts_client.assume_role q.assume_role_request = .ok resp → resp.credentials = none →
      (q.assume_role parse).1 =
        .error (RusotoError.Credentials (CredentialsError.new "no credentials in response"))) ∧
    (∀ (w : StsWebIdentityFederationSessionCredentialsProvider)
        (resp : AssumeRoleWithWebIdentityResponse),
      w.sts_client.assume_role_with_web_identity w.assume_role_with_web_identity_request =
        .ok resp →
      resp.credentials = none →
      (w.assume_role_with_web_identity parse).1 =
        .error (RusotoError.Credentials (CredentialsError.new "no credentials in response"))) := by
  refine ⟨?_, ?_, ?_⟩
  · intro p resp h1 h2
    unfold StsSessionCredentialsProvider.credentials
    rw [h1]
    simp [h2]
  · intro q resp h1 h2
    unfold StsAssumeRoleSessionCredentialsProvider.assume_role
    rw [h1]
    simp [h2]
  · intro w resp h1 h2
    unfold StsWebIdentityFederationSessionCredentialsProvider.assume_role_with_web_identity
    rw [h1]
    simp [h2]

/-- Witness for C3 with stub clients returning success without a payload. -/
theorem missing_credentials_error_witness :
    ((StsSessionCredentialsProvider.new stubSts none none).credentials parseFixed).1 =
      .error (CredentialsError.new "no credentials in response") ∧
    ((StsAssumeRoleSessionCredentialsProvider.new stubSts "arn" "sess" none none none
        none).assume_role parseFixed).1 =
      .error (RusotoError.Credentials (CredentialsError.new "no credentials in response")) ∧
    ((StsWebIdentityFederationSessionCredentialsProvider.new stubSts "tok" none "arn" "sess"
        none none).assume_role_with_web_identity parseFixed).1 =
      .error (RusotoError.Credentials (CredentialsError.new "no credentials in response")) :=
  ⟨(missing_credentials_error parseFixed).1 _ { credentials := none } rfl rfl,
   (missing_credentials_error parseFixed).2.1 _ { credentials := none } rfl rfl,
   (missing_credentials_error parseFixed).2.2 _
     { credentials := none
       subject_from_web_identity_token := none
       audience := none
       provider := none } rfl rfl⟩

/-- C4: when the client's assume-role call fails, `assume_role` returns the
remote error unchanged; `credentials()` maps any `assume_role` failure to a
single `CredentialsError` whose message is the formatted description of that
error, and on success returns the converted credentials. -/
theorem assume_role_error_propagation (parse : String → Except String Int)
    (q : StsAssumeRoleSessionCredentialsProvider) :
    (∀ e, q.sts_client.assume_role q.assume_role_request = .error e →
      (q.assume_role parse).1 = .error e) ∧
    (∀ err, (q.assume_role parse).1 = .error err →
      (q.credentials parse).1 =
        .error (CredentialsError.new
          ("StsProvider get_session_token error: " ++
            RusotoError.debugFmt AssumeRoleError.debugFmt err))) ∧
    (∀ c, (q.assume_role parse).1 = .ok c → (q.credentials parse).1 = .ok c) := by
  refine ⟨?_, ?_, ?_⟩
  · intro e he
    unfold StsAssumeRoleSessionCredentialsProvider.assume_role
    rw [he]
  · intro err herr
    unfold StsAssumeRoleSessionCredentialsProvider.credentials
    rw [herr]
  · intro c hc
    unfold StsAssumeRoleSessionCredentialsProvider.credentials
    rw [hc]

/-- Witness for C4 with a failing client and a succeeding client. -/
theorem assume_role_error_propagation_witness :
    ((StsAssumeRoleSessionCredentialsProvider.new failSts "arn" "sess" none none none
        none).assume_role parseFixed).1 =
      .error (RusotoError.Service { description := "denied" }) ∧
    ((StsAssumeRoleSessionCredentialsProvider.new failSts "arn" "sess" none none none
        none).credentials parseFixed).1 =
      .error (CredentialsError.new
        ("StsProvider get_session_token error: " ++
          RusotoError.debugFmt AssumeRoleError.debugFmt
            (RusotoError.Service { description := "denied" }))) ∧
    ((StsAssumeRoleSessionCredentialsProvider.new okSts "arn" "sess" none none none
        none).credentials parseFixed).1 =
      .ok { access_key_id := "AKIDEXAMPLE"
            secret_access_key := "SECRET"
            session_token := some "TOKEN"
            expires_at := some 1426325213
            claims := [] } :=
  ⟨(assume_role_error_propagation parseFixed
      (StsAssumeRoleSessionCredentialsProvider.new failSts "arn" "sess" none none none none)).1
    (RusotoError.Service { description := "denied" }) rfl,
   (assume_role_error_propagation parseFixed
      (StsAssumeRoleSessionCredentialsProvider.new failSts "arn" "sess" none none none none)).2.1
    (RusotoError.Service { description := "denied" }) rfl,
   (assume_role_error_propagation parseFixed
      (StsAssumeRoleSessionCredentialsProvider.new okSts "arn" "sess" none none none none)).2.2
    { access_key_id := "AKIDEXAMPLE"
      secret_access_key := "SECRET"
      session_token := some "TOKEN"
      expires_at := some 1426325213
      claims := [] } rfl⟩

/-- C8: for every successful web-identity response with a credential payload
and parseable expiration, the returned credentials' claims mapping contains
the "subject" key iff the response carries a subject-from-web-identity-token
value (mapped to it), the "audience" key iff it carries an audience value,
and the "issuer" key iff it carries a provider value, with no other keys;
each insertion is independent of the presence of the others. -/
theorem wif_claims_enrichment (parse : String → Except String Int)
    (w : StsWebIdentityFederationSessionCredentialsProvider)
    (resp : AssumeRoleWithWebIdentityResponse) (c : Credentials) (t : Int)
    (creds : AwsCredentials)
    (hresp : w.sts_client.assume_role_with_web_identity
        w.assume_role_with_web_identity_request = .ok resp)
    (hc : resp.credentials = some c)
    (ht : parse c.expiration = .ok t)
    (hr : (w.assume_role_with_web_identity parse).1 = .ok creds) :
    ClaimsMap.get creds.claims claims.SUBJECT = resp.subject_from_web_identity_token ∧
    ClaimsMap.get creds.claims claims.AUDIENCE = resp.audience ∧
    ClaimsMap.get creds.claims claims.ISSUER = resp.provider ∧
    ∀ kv ∈ creds.claims,
      kv.1 = claims.SUBJECT ∨ kv.1 = claims.AUDIENCE ∨ kv.1 = claims.ISSUER := by
  obtain ⟨rc, rs, ra, rp⟩ := resp
  simp only at hc
  subst hc
  unfold StsWebIdentityFederationSessionCredentialsProvider.assume_role_with_web_identity at hr
  rw [hresp] at hr
  simp only [AwsCredentials.new_for_credentials, AwsCredentials.new, ht] at hr
  rcases rs with - | s <;> rcases ra with - | a <;> rcases rp with - | i <;>
    simp [ClaimsMap.insert, claims.SUBJECT, claims.AUDIENCE, claims.ISSUER] at hr <;>
    subst hr <;>
    simp [ClaimsMap.get, List.forall_mem_cons,
      claims.SUBJECT, claims.AUDIENCE, claims.ISSUER]

/-- Witness for C8: all three enrichment values present. -/
theorem wif_claims_enrichment_witness :
    ClaimsMap.get
        [("subject", "user1"), ("audience", "aud1"), ("issuer", "https://idp")]
        claims.SUBJECT = some "user1" ∧
    ClaimsMap.get
        [("subject", "user1"), ("audience", "aud1"), ("issuer", "https://idp")]
        claims.AUDIENCE = some "aud1" ∧
    ClaimsMap.get
        [("subject", "user1"), ("audience", "aud1"), ("issuer", "https://idp")]
        claims.ISSUER = some "https://idp" ∧
    ∀ kv ∈ ([("subject", "user1"), ("audience", "aud1"), ("issuer", "https://idp")] :
        ClaimsMap),
      kv.1 = claims.SUBJECT ∨ kv.1 = claims.AUDIENCE ∨ kv.1 = claims.ISSUER :=
  wif_claims_enrichment parseFixed
    (StsWebIdentityFederationSessionCredentialsProvider.new okSts "tok" none "arn" "sess"
      none none)
    { credentials := some fixedCreds
      subject_from_web_identity_token := some "user1"
      audience := some "aud1"
      provider := some "https://idp" }
    fixedCreds 1426325213
    { access_key_id := "AKIDEXAMPLE"
      secret_access_key := "SECRET"
      session_token := some "TOKEN"
      expires_at := some 1426325213
      claims := [("subject", "user1"), ("audience", "aud1"), ("issuer", "https://idp")] }
    rfl rfl rfl rfl

end Rusoto
